import Mathlib

/-!
Verification of the signal-to-order core of the `Bothh` Telegram/MEXC
auto-trader (`src/main.py`, `src/server.py`).

Modelling conventions:
* Python `float` arithmetic is embedded over `ℚ` (exact rational arithmetic;
  the claims are about the intended real-number arithmetic of the code).
* `ccxt.Exchange.amount_to_precision` (ccxt truncates amounts toward zero to
  the instrument's step) is embedded as `round_amount step x = step * ⌊x/step⌋`,
  which agrees with truncation for the nonnegative amounts the code produces.
* Network/exchange effects are embedded as explicit event traces (`PortEvent`),
  with an oracle `ok : ℕ → Bool` deciding whether the i-th `create_order`
  call succeeds; a Python exception aborts the remaining effects, which the
  trace model mirrors by returning an `Except` error together with the
  events emitted up to the raising call.
-/

namespace Bothh

/-! ## Configuration constants (head of `src/main.py`) -/

/-- `ALLOW_SLIPPAGE_PCT = 0.30` — max 0.30% deviation entry vs market. -/
def ALLOW_SLIPPAGE_PCT : ℚ := 30 / 100

/-- `USE_STOP_LOSS = False` — no initial stop-loss leg is placed. -/
def USE_STOP_LOSS : Bool := false

/-- `STOP_LOSS_PCT = 0.0` (ignored while `USE_STOP_LOSS` is false). -/
def STOP_LOSS_PCT : ℚ := 0

/-- Modelled from the spec: `MARGIN_USDT` is assigned in the configuration
header of `main.py` that is truncated away above the first line present in
`src/`; the spec (§8) and the code's own messages ("50 USDT x 20 / Entry",
"Nutzt 50 USDT Margin * 20x / Entry = Menge") fix it at 50. -/
def MARGIN_USDT : ℚ := 50

/-- Modelled from the spec: `LEVERAGE` is assigned in the truncated
configuration header of `main.py`; the spec (§8) and the code's own
messages fix it at 20. -/
def LEVERAGE : ℚ := 20

/-! ## Helpers (`src/main.py` lines 28-50) -/

/-- `.upper()` on a character list (ASCII, as Python applies it to the
symbol and direction captures). -/
def toUpperList (s : List Char) : List Char := s.map Char.toUpper

/-- Python `str.split("/")` on a character list. -/
def splitSlash : List Char → List (List Char)
  | [] => [[]]
  | c :: cs =>
    if c = '/' then [] :: splitSlash cs
    else
      match splitSlash cs with
      | t :: ts => (c :: t) :: ts
      | [] => [[c]]

/-- `to_perp`: maps a spot pair "BASE/QUOTE" to the ccxt USDT-perp symbol
"BASE/USDT:USDT".  Python unpacks `symbol_txt.upper().split("/")` into
exactly two names and raises `ValueError` otherwise; the embedding returns
`none` on that raising path. -/
def to_perp (symbol_txt : String) : Option String :=
  match splitSlash (toUpperList symbol_txt.data) with
  | [base, _quote] => some (String.mk (base ++ "/USDT:USDT".data))
  | _ => none

/-- `round_amount`: `float(exchange.amount_to_precision(symbol, amount))`,
embedded as truncation of the amount to the instrument's quantity step
(ccxt truncates amounts; for nonnegative amounts truncation is `⌊·⌋`). -/
def round_amount (step amount : ℚ) : ℚ :=
  step * ⌊amount / step⌋

/-- `within_slippage(entry, last, max_pct)` from `src/main.py` lines 38-41. -/
def within_slippage (entry last max_pct : ℚ) : Bool :=
  if entry ≤ 0 ∨ last ≤ 0 then false
  else decide (|last - entry| / entry * 100 ≤ max_pct)

/-- `side_and_reduce(direction)`: LONG → ("buy", "sell"), otherwise
("sell", "buy"). -/
def side_and_reduce (direction : String) : String × String :=
  if direction.toUpper = "LONG" then ("buy", "sell") else ("sell", "buy")

/-! ## Sizing arithmetic (`place_entry_and_tps`, lines 109-113) -/

/-- `qty_raw = notion_usdt / max(entry, 1e-9)` with
`notion_usdt = MARGIN_USDT * LEVERAGE`. -/
def qty_raw (entry : ℚ) : ℚ :=
  MARGIN_USDT * LEVERAGE / max entry (1 / 10 ^ 9)

/-! ## Take-profit leg arithmetic (`place_entry_and_tps`, lines 127-135) -/

/-- `tp_qty(frac) = round_amount(exchange, symbol, qty * frac)`. -/
def tp_qty (step qty frac : ℚ) : ℚ :=
  round_amount step (qty * frac)

/-- `rest_share = max(0.0, 1.0 - 0.20 - 0.50)`. -/
def rest_share : ℚ := max 0 (1 - 2 / 10 - 5 / 10)

/-- `last_tp_price = tp3 if tp3 is not None else tp2`. -/
def last_tp_price (tp3 : Option ℚ) (tp2 : ℚ) : ℚ :=
  tp3.getD tp2

/-- The three take-profit leg quantities exactly as the code computes them:
every leg, including the last, is `round_amount` of `qty * fraction`. -/
def tpLegs (step qty : ℚ) : ℚ × ℚ × ℚ :=
  (tp_qty step qty (2 / 10), tp_qty step qty (5 / 10), tp_qty step qty rest_share)

/-- Stated from the spec's words (for comparison with `tpLegs`): the first
two legs are rounded independently and the final leg is *forced* to
`totalQuantity − sum(previous legs)`, clamped to ≥ 0. -/
def tpLegsSpecForced (step qty : ℚ) : ℚ × ℚ × ℚ :=
  let l1 := tp_qty step qty (2 / 10)
  let l2 := tp_qty step qty (5 / 10)
  (l1, l2, max 0 (qty - l1 - l2))

/-- Truncation to a positive step never exceeds the amount. -/
theorem round_amount_le (step x : ℚ) (h : 0 < step) : round_amount step x ≤ x := by
  unfold round_amount
  calc step * (⌊x / step⌋ : ℚ) ≤ step * (x / step) :=
        mul_le_mul_of_nonneg_left (Int.floor_le (x / step)) (le_of_lt h)
    _ = x := by field_simp

/-! ## Signal parser (`SIGNAL_RE`, `src/main.py` lines 53-64)

The pattern (flags `(?ix)` + `re.DOTALL`, applied with `re.search`; the `^`
anchor without `re.MULTILINE` pins the match to the start of the string,
so the leading lazy `.*?` scans positions left to right):

  `^.*?STRIKT.*?(?P<symbol>[A-Z0-9]+\/USDT).*?\n`
  `.*?➡️\s*\*(?P<side>LONG|SHORT)\*.*?\n`
  `.*?Entry:\s*` + backtick? + `(?P<entry>\d+(\.\d+)?)` + backtick? + `.*?\n`
  (same shape for TP1, TP2, and an optional TP3 group).

Each lazy `.*?X` is embedded as `searchR`: try the rest of the pattern at
every position from left to right, committing to the first success — which
is exactly the backtracking order of Python's lazy quantifier.  The greedy
pieces (`\s*`, the optional inline-code backtick, `\d+(\.\d+)?`,
`[A-Z0-9]+`) are deterministic here because the characters that follow
them in the pattern are disjoint from the repeated character classes, so
giving back characters can never turn a failure into a success. -/

/-- Case-insensitive character comparison (ASCII, as `re.IGNORECASE`). -/
def chEqI (a b : Char) : Bool := a.toUpper == b.toUpper

/-- Match a literal case-insensitively at the head of the text; return the
remaining text. -/
def litI : List Char → List Char → Option (List Char)
  | [], s => some s
  | _ :: _, [] => none
  | p :: ps, c :: cs => if chEqI p c then litI ps cs else none

/-- Lazy `.*?` (with `re.DOTALL`) followed by the rest of the pattern `R`:
try `R` at each position, leftmost first. -/
def searchR {α : Type} (R : List Char → Option α) : List Char → Option α
  | [] => R []
  | c :: cs =>
    match R (c :: cs) with
    | some v => some v
    | none => searchR R cs

/-- Python `\s` (ASCII): space, tab, newline, carriage return, vertical
tab, form feed. -/
def isWs (c : Char) : Bool :=
  c == ' ' || c == '\t' || c == '\n' || c == '\r' || c == '\x0b' || c == '\x0c'

/-- Greedy `\s*`. -/
def skipWs : List Char → List Char
  | [] => []
  | c :: cs => if isWs c then skipWs cs else c :: cs

/-- The inline-code marker of the pattern (U+0060). -/
def backtickChar : Char := Char.ofNat 96

/-- Greedy optional inline-code marker. -/
def optTick : List Char → List Char
  | [] => []
  | c :: cs => if c == backtickChar then cs else c :: cs

/-- Greedy `\d+` (possibly empty here; emptiness is checked by the caller). -/
def takeDigits : List Char → List Char × List Char
  | [] => ([], [])
  | c :: cs =>
    if c.isDigit then
      let p := takeDigits cs
      (c :: p.1, p.2)
    else ([], c :: cs)

/-- `\d+(\.\d+)?`: the captured characters and the remaining text. -/
def numTok (s : List Char) : Option (List Char × List Char) :=
  let p1 := takeDigits s
  if p1.1.isEmpty then none
  else
    match p1.2 with
    | c :: r2 =>
      if c == '.' then
        let p2 := takeDigits r2
        if p2.1.isEmpty then some (p1.1, p1.2)
        else some (p1.1 ++ c :: p2.1, p2.2)
      else some (p1.1, p1.2)
    | [] => some (p1.1, [])

/-- `[A-Z0-9]` under `re.IGNORECASE` (ASCII letters and digits). -/
def isAlnumI (c : Char) : Bool := c.isAlpha || c.isDigit

/-- Greedy `[A-Z0-9]+` run (possibly empty; checked by the caller). -/
def takeAlnum : List Char → List Char × List Char
  | [] => ([], [])
  | c :: cs =>
    if isAlnumI c then
      let p := takeAlnum cs
      (c :: p.1, p.2)
    else ([], c :: cs)

/-- `(?P<symbol>[A-Z0-9]+\/USDT)` at the current position: a nonempty
alphanumeric run followed by "/USDT" (case-insensitively); the capture is
the text as it appears. -/
def symAt (s : List Char) : Option (List Char × List Char) :=
  let p := takeAlnum s
  if p.1.isEmpty then none
  else
    match litI "/USDT".data p.2 with
    | some r => some (p.1 ++ p.2.take 5, r)
    | none => none

/-- A literal newline (the `\n` terminating each field line). -/
def nlTok : List Char := ['\n']

/-- One field line of the pattern:
`.*?TAG\s*` + backtick? + `(\d+(\.\d+)?)` + backtick? + `.*?\n`, followed by
the continuation `next` (the rest of the pattern, so that a failure of
`next` backtracks into the lazy quantifiers, as in the regex). -/
def fieldBlock {α : Type} (tag : List Char) (next : List Char → Option α)
    (s : List Char) : Option (List Char × α) :=
  searchR (fun r =>
    match litI tag r with
    | none => none
    | some r1 =>
      match numTok (optTick (skipWs r1)) with
      | none => none
      | some (cap, r2) =>
        match searchR (fun r3 =>
            match litI nlTok r3 with
            | none => none
            | some r4 => next r4) (optTick r2) with
        | none => none
        | some a => some (cap, a)) s

/-- The optional trailing group `(?:.*?TP3:\s*...\n)?`: greedy — it matches
when it can and otherwise matches empty, so the block always succeeds. -/
def tp3Block (s : List Char) : Option (List Char) :=
  (fieldBlock "TP3:".data (fun _ => some ()) s).map Prod.fst

def tp2Block (s : List Char) : Option (List Char × Option (List Char)) :=
  fieldBlock "TP2:".data (fun r => some (tp3Block r)) s

def tp1Block (s : List Char) :
    Option (List Char × (List Char × Option (List Char))) :=
  fieldBlock "TP1:".data tp2Block s

def entryBlock (s : List Char) :
    Option (List Char × (List Char × (List Char × Option (List Char)))) :=
  fieldBlock "Entry:".data tp1Block s

/-- `(?P<side>LONG|SHORT)` at the current position (alternatives in the
pattern's order); the capture is the text as it appears. -/
def sideTok (s : List Char) : Option (List Char × List Char) :=
  match litI "LONG".data s with
  | some r => some (s.take 4, r)
  | none =>
    match litI "SHORT".data s with
    | some r => some (s.take 5, r)
    | none => none

/-- `.*?➡️\s*\*(?P<side>LONG|SHORT)\*.*?\n` followed by the entry block. -/
def sideBlock (s : List Char) :
    Option (List Char × (List Char × (List Char × (List Char ×
      Option (List Char))))) :=
  searchR (fun r =>
    match litI "➡️".data r with
    | none => none
    | some r1 =>
      match litI ['*'] (skipWs r1) with
      | none => none
      | some r2 =>
        match sideTok r2 with
        | none => none
        | some (cap, r3) =>
          match litI ['*'] r3 with
          | none => none
          | some r4 =>
            match searchR (fun r5 =>
                match litI nlTok r5 with
                | none => none
                | some r6 => entryBlock r6) r4 with
            | none => none
            | some a => some (cap, a)) s

/-- `.*?(?P<symbol>[A-Z0-9]+\/USDT).*?\n` followed by the side block. -/
def symbolBlock (s : List Char) :
    Option (List Char × (List Char × (List Char × (List Char × (List Char ×
      Option (List Char)))))) :=
  searchR (fun r =>
    match symAt r with
    | none => none
    | some (cap, r1) =>
      match searchR (fun r2 =>
          match litI nlTok r2 with
          | none => none
          | some r3 => sideBlock r3) r1 with
      | none => none
      | some a => some (cap, a)) s

/-- The named capture groups of a `SIGNAL_RE` match, as they appear in the
text (the numeric conversions of `on_message` are applied separately). -/
structure SigGroups where
  symbol : List Char
  side : List Char
  entry : List Char
  tp1 : List Char
  tp2 : List Char
  tp3 : Option (List Char)
deriving DecidableEq, Repr

/-- The pattern after the leading lazy prefix: the marker token "STRIKT"
followed by the symbol block (and through it, the whole remaining
pattern). -/
def markerThenSymbol (r : List Char) :
    Option (List Char × (List Char × (List Char × (List Char × (List Char ×
      Option (List Char)))))) :=
  match litI "STRIKT".data r with
  | none => none
  | some r1 => symbolBlock r1

/-- `SIGNAL_RE.search(text)`: `none` models Python's `None` (no match). -/
def SIGNAL_RE_search (text : String) : Option SigGroups :=
  match searchR markerThenSymbol text.data with
  | none => none
  | some (sym, sd, en, t1, t2, t3) => some ⟨sym, sd, en, t1, t2, t3⟩

/-- Whether the marker token "STRIKT" occurs in the text
(case-insensitively, as `re.IGNORECASE` reads it). -/
def containsMarker (text : String) : Bool :=
  (searchR (litI "STRIKT".data) text.data).isSome

/-- Whether a literal occurs anywhere in the text (case-insensitively):
the lazy search for it succeeds at some position.  Its negation states
that a mandatory field's tag is missing from the message. -/
def containsLit (lit : List Char) (text : String) : Bool :=
  (searchR (litI lit) text.data).isSome

/-- Whether some occurrence of `Entry:` is followed (after `\s*` and an
optional inline-code marker) by a parsable `\d+(\.\d+)?` number — the
pattern's entry field in isolation.  Its negation states that the entry
field is missing or unparsable everywhere in the message. -/
def entryFieldParsable (text : String) : Bool :=
  (searchR (fun r =>
    match litI "Entry:".data r with
    | none => none
    | some r1 => numTok (optTick (skipWs r1))) text.data).isSome

/-- Value of a run of decimal digits. -/
def digitsVal (ds : List Char) : ℕ :=
  ds.foldl (fun a c => 10 * a + (c.toNat - 48)) 0

/-- Python `float()` applied to a capture of shape `\d+(\.\d+)?`, as an
exact rational. -/
def decVal (s : List Char) : ℚ :=
  let ip := s.takeWhile (fun c => c ≠ '.')
  match s.dropWhile (fun c => c ≠ '.') with
  | _ :: frac => (digitsVal ip : ℚ) + (digitsVal frac : ℚ) / 10 ^ frac.length
  | [] => (digitsVal ip : ℚ)

/-- The sample signal of `cmd_testsignal` (`src/main.py` lines 296-303). -/
def sampleSignal : String :=
  "🛡 STRIKT — STX/USDT 5m\n➡️ *SHORT*\n🎯 Entry: `0.643`\n🏁 TP1: `0.641297`\n🏁 TP2: `0.639253`\n🏁 TP3: `0.637209`\n"

/-- A marker-bearing message whose mandatory `Entry:` field is absent. -/
def missingEntrySignal : String :=
  "🛡 STRIKT — STX/USDT 5m\n➡️ *SHORT*\n🏁 TP1: `0.641297`\n🏁 TP2: `0.639253`\n"

/-- The fixture with an unparsable entry value: the mandatory `Entry:`
field is present but its value is not a number. -/
def unparsableEntrySignal : String :=
  "🛡 STRIKT — STX/USDT 5m\n➡️ *SHORT*\n🎯 Entry: `abc`\n🏁 TP1: `0.641297`\n🏁 TP2: `0.639253`\n🏁 TP3: `0.637209`\n"

/-! ## Dry-run simulation (`simulate_entry_and_tps`, lines 157-177) -/

/-- The dictionary returned by `simulate_entry_and_tps`. -/
structure SimResult where
  entry_side : String
  reduce_side : String
  qty : ℚ
  tp1_qty : ℚ
  tp2_qty : ℚ
  tp3_qty : ℚ
  tp1_price : ℚ
  tp2_price : ℚ
  tp3_price : ℚ
deriving DecidableEq, Repr

/-- `simulate_entry_and_tps`: pure arithmetic, no exchange calls. -/
def simulate_entry_and_tps (symbol : String) (direction : String)
    (entry tp1 tp2 : ℚ) (tp3 : Option ℚ) : SimResult :=
  let _ := symbol
  let notion_usdt := MARGIN_USDT * LEVERAGE
  let qty := notion_usdt / max entry (1 / 10 ^ 9)
  { entry_side := if direction.toUpper = "LONG" then "buy" else "sell"
    reduce_side := if direction.toUpper = "LONG" then "sell" else "buy"
    qty := qty
    tp1_qty := qty * (2 / 10)
    tp2_qty := qty * (5 / 10)
    tp3_qty := qty * (1 - 7 / 10)
    tp1_price := tp1
    tp2_price := tp2
    tp3_price := match tp3 with | some v => v | none => tp2 }

/-! ## Execution engine (`place_entry_and_tps`, lines 100-155)

The trading port's calls are recorded as an event trace; `ok i` tells
whether the i-th `create_order` call succeeds (a failing call raises, so
execution stops at the first `i` with `ok i = false`). -/

/-- One call to the trading port. -/
inductive PortEvent where
  | loadMarkets : PortEvent
  | fetchTicker (symbol : String) : PortEvent
  | setMarginLeverage (symbol : String) (lev : ℚ) : PortEvent
  | createOrder (symbol otype oside : String) (qty : ℚ) (price : Option ℚ)
      (reduceOnly : Bool) : PortEvent
  | cancelOrder (id : ℕ) (symbol : String) : PortEvent
deriving DecidableEq, Repr

/-- Whether a port call mutates exchange state (order creation or
cancellation, leverage/margin-mode change). -/
def PortEvent.isMutating : PortEvent → Bool
  | .createOrder .. => true
  | .cancelOrder .. => true
  | .setMarginLeverage .. => true
  | _ => false

/-- Whether a port call submits an order. -/
def PortEvent.isOrder : PortEvent → Bool
  | .createOrder .. => true
  | _ => false

/-- The failure taxonomy of `place_entry_and_tps` (each case is raised as
an exception in Python and caught by `on_message`). -/
inductive ExecErr where
  | insufficientSize : ExecErr
  | excessiveSlippage : ExecErr
  | orderFailed (idx : ℕ) : ExecErr
deriving DecidableEq, Repr

/-- The successful result dictionary (the order objects themselves are
exchange-side data and are represented by the trace). -/
structure PlacedBundle where
  qty : ℚ
  last : ℚ
deriving DecidableEq, Repr

/-- The entry order event of a plan. -/
def entryOrderEv (step : ℚ) (symbol direction : String) (entry : ℚ) :
    PortEvent :=
  .createOrder symbol "market" (side_and_reduce direction).1
    (round_amount step (qty_raw entry)) none false

/-- The first reduce-only take-profit order of a plan:
`create_order(symbol, "limit", reduce_side, tp_qty(0.20), tp1, reduceOnly)`. -/
def tpOrderEv1 (step : ℚ) (symbol direction : String) (entry tp1 : ℚ) :
    PortEvent :=
  .createOrder symbol "limit" (side_and_reduce direction).2
    (tp_qty step (round_amount step (qty_raw entry)) (2 / 10)) (some tp1) true

/-- The second take-profit order: `tp_qty(0.50)` at price `tp2`. -/
def tpOrderEv2 (step : ℚ) (symbol direction : String) (entry tp2 : ℚ) :
    PortEvent :=
  .createOrder symbol "limit" (side_and_reduce direction).2
    (tp_qty step (round_amount step (qty_raw entry)) (5 / 10)) (some tp2) true

/-- The third take-profit order: `tp_qty(rest_share)` at `last_tp_price`. -/
def tpOrderEv3 (step : ℚ) (symbol direction : String) (entry tp2 : ℚ)
    (tp3 : Option ℚ) : PortEvent :=
  .createOrder symbol "limit" (side_and_reduce direction).2
    (tp_qty step (round_amount step (qty_raw entry)) rest_share)
    (some (last_tp_price tp3 tp2)) true

/-- All four order events of a fully executed plan, in submission order. -/
def plannedOrders (step : ℚ) (symbol direction : String)
    (entry tp1 tp2 : ℚ) (tp3 : Option ℚ) : List PortEvent :=
  [entryOrderEv step symbol direction entry,
   tpOrderEv1 step symbol direction entry tp1,
   tpOrderEv2 step symbol direction entry tp2,
   tpOrderEv3 step symbol direction entry tp2 tp3]

/-- `place_entry_and_tps(exchange, symbol, direction, entry, tp1, tp2, tp3)`:
the port events emitted (in order) and the outcome.  `last` is the value
returned by the `get_last_price` fetch; `step` is the instrument's quantity
step used by `amount_to_precision`.  The initial stop-loss block is elided:
`USE_STOP_LOSS ∧ STOP_LOSS_PCT > 0` is statically false. -/
def place_entry_and_tps (ok : ℕ → Bool) (step : ℚ) (symbol direction : String)
    (entry tp1 tp2 : ℚ) (tp3 : Option ℚ) (last : ℚ) :
    List PortEvent × Except ExecErr PlacedBundle :=
  let qty := round_amount step (qty_raw entry)
  if qty ≤ 0 then ([], .error .insufficientSize)
  else if within_slippage entry last ALLOW_SLIPPAGE_PCT = false then
    ([.fetchTicker symbol], .error .excessiveSlippage)
  else
    let pre : List PortEvent :=
      [.fetchTicker symbol, .setMarginLeverage symbol LEVERAGE]
    let eEntry := entryOrderEv step symbol direction entry
    let e1 := tpOrderEv1 step symbol direction entry tp1
    let e2 := tpOrderEv2 step symbol direction entry tp2
    let e3 := tpOrderEv3 step symbol direction entry tp2 tp3
    if ok 0 = false then (pre ++ [eEntry], .error (.orderFailed 0))
    else if ok 1 = false then (pre ++ [eEntry, e1], .error (.orderFailed 1))
    else if ok 2 = false then
      (pre ++ [eEntry, e1, e2], .error (.orderFailed 2))
    else if ok 3 = false then
      (pre ++ [eEntry, e1, e2, e3], .error (.orderFailed 3))
    else (pre ++ [eEntry, e1, e2, e3], .ok ⟨qty, last⟩)

/-! ## Message handler (`on_message`, lines 180-250) -/

/-- A notification emitted through the notifier port (channel reply and
owner DM carry the same payload). -/
inductive NoteKind where
  | dryRunReport (sim : SimResult) : NoteKind
  | tradeReport (qty last : ℚ) : NoteKind
  | errorReport : NoteKind
deriving DecidableEq, Repr

/-- `on_message`: the guards (channel filter, message deduplication), the
parse, and either the dry-run branch, the live branch, or the caught-error
branch.  Returns the port events and the notifications, in order.
`marketOk` is whether `perp in ex.markets` after `load_markets`. -/
def on_message (dryRun channelOk seen marketOk : Bool) (ok : ℕ → Bool)
    (step : ℚ) (text : String) (last : ℚ) : List PortEvent × List NoteKind :=
  if channelOk = false then ([], [])
  else if seen then ([], [])
  else
    match SIGNAL_RE_search text.trim with
    | none => ([], [])
    | some g =>
      let direction := String.mk (toUpperList g.side)
      let entry := decVal g.entry
      let tp1 := decVal g.tp1
      let tp2 := decVal g.tp2
      let tp3 := g.tp3.map decVal
      match to_perp (String.mk (toUpperList g.symbol)) with
      | none => ([], [])
      | some perp =>
        if marketOk = false then ([.loadMarkets], [.errorReport, .errorReport])
        else if dryRun then
          let sim := simulate_entry_and_tps perp direction entry tp1 tp2 tp3
          ([.loadMarkets], [.dryRunReport sim, .dryRunReport sim])
        else
          let r := place_entry_and_tps ok step perp direction entry tp1 tp2 tp3 last
          match r.2 with
          | .ok b =>
            (.loadMarkets :: r.1, [.tradeReport b.qty b.last, .tradeReport b.qty b.last])
          | .error _ => (.loadMarkets :: r.1, [.errorReport, .errorReport])

/-! ## Position monitor

Modelled from the spec: no Position Monitor exists under `src/` — §4.5 of
the spec describes it (states `WATCHING_TP1`, `BREAK_EVEN_ACTIVE`, `FLAT`;
break-even stop replacement once TP1's planned quantity is filled; flat
detection) and the definitions below follow its words. -/

inductive MonState where
  | watchingTp1 : MonState
  | breakEvenActive : MonState
  | flat : MonState
deriving DecidableEq, Repr

/-- Modelled from the spec: the `OrderBundle` fields the monitor reads and
writes (§3, §4.5). -/
structure MonBundle where
  total : ℚ
  tp1Planned : ℚ
  originalEntry : ℚ
  stopOrder : Option ℕ
  stopIsBreakEven : Bool
  state : MonState
deriving DecidableEq, Repr

/-- An action the monitor performs against the ports during one cycle. -/
inductive MonAction where
  | cancelStop (id : ℕ) : MonAction
  | submitStop (price qty : ℚ) (reduceOnly : Bool) : MonAction
  | notifyBreakEven : MonAction
  | notifyFlat : MonAction
deriving DecidableEq, Repr

/-- Whether an action submits a stop order. -/
def MonAction.isSubmitStop : MonAction → Bool
  | .submitStop .. => true
  | _ => false

/-- Modelled from the spec: one polling cycle of the Position Monitor
(§4.5).  `tp1Filled` and `positionContracts` are the values fetched from
the trading port this cycle; `newStopId` is the id the port assigns to a
newly submitted stop order. -/
def monitorStep (b : MonBundle) (tp1Filled positionContracts : ℚ)
    (newStopId : ℕ) : MonBundle × List MonAction :=
  if positionContracts = 0 then
    ({ b with state := .flat }, [.notifyFlat])
  else
    match b.state with
    | .watchingTp1 =>
      if b.tp1Planned ≤ tp1Filled then
        let cancels : List MonAction :=
          match b.stopOrder with
          | some i => [.cancelStop i]
          | none => []
        let b2 : MonBundle :=
          { b with
            state := MonState.breakEvenActive
            stopIsBreakEven := true
            stopOrder := some newStopId }
        (b2,
         cancels ++ [.submitStop b.originalEntry (b.total - b.tp1Planned) true,
           .notifyBreakEven])
      else (b, [])
    | .breakEvenActive => (b, [])
    | .flat => (b, [])

/-! ## Claims -/

/-- C1, counterexample: the code does not force the final take-profit leg
to `totalQuantity − sum(previous legs)` — every leg, the last included, is
`round_amount(qty * fraction)` (`tp_qty(rest_share)` with
`rest_share = max(0, 1 − 0.20 − 0.50)`, lines 127-135).  With quantity
step 1 and total quantity 3 the legs are (0, 1, 0): the forced-remainder
rule would give (0, 1, 2), and the sum 1 differs from the total 3. -/
theorem C1_counterexample :
    tpLegs 1 3 ≠ tpLegsSpecForced 1 3 ∧
    (tpLegs 1 3).1 + (tpLegs 1 3).2.1 + (tpLegs 1 3).2.2 ≠ 3 := by
  have e1 : tp_qty 1 3 (2 / 10) = 0 := by
    simp only [tp_qty, round_amount]
    rw [show ((3 : ℚ) * (2 / 10) / 1) = 3 / 5 by norm_num]
    rw [show ⌊(3 : ℚ) / 5⌋ = 0 from by rw [Int.floor_eq_iff]; norm_num]
    norm_num
  have e2 : tp_qty 1 3 (5 / 10) = 1 := by
    simp only [tp_qty, round_amount]
    rw [show ((3 : ℚ) * (5 / 10) / 1) = 3 / 2 by norm_num]
    rw [show ⌊(3 : ℚ) / 2⌋ = 1 from by rw [Int.floor_eq_iff]; norm_num]
    norm_num
  have e3 : tp_qty 1 3 rest_share = 0 := by
    simp only [tp_qty, round_amount, rest_share]
    rw [show ((3 : ℚ) * max 0 (1 - 2 / 10 - 5 / 10) / 1) = 9 / 10 by norm_num]
    rw [show ⌊(9 : ℚ) / 10⌋ = 0 from by rw [Int.floor_eq_iff]; norm_num]
    norm_num
  have hlegs : tpLegs 1 3 = (0, 1, 0) := by
    simp only [tpLegs, e1, e2, e3]
  have hforced : tpLegsSpecForced 1 3 = (0, 1, 2) := by
    simp only [tpLegsSpecForced, e1, e2]
    norm_num
  rw [hlegs, hforced]
  refine ⟨fun hcontra => ?_, by norm_num⟩
  simp only [Prod.mk.injEq] at hcontra
  norm_num at hcontra

/-- C1, amended: each take-profit leg, including the last, is computed by
rounding `quantity × fraction` (the last with the residual fraction
`max(0, 1 − 0.20 − 0.50) = 0.30`); the final leg is not forced to the
remainder, so the legs' sum is at most the total quantity but can fall
short of it. -/
theorem C1_tp_allocation_amended (step qty : ℚ) (hstep : 0 < step) :
    (tpLegs step qty).1 + (tpLegs step qty).2.1 + (tpLegs step qty).2.2 ≤ qty := by
  have h1 := round_amount_le step (qty * (2 / 10)) hstep
  have h2 := round_amount_le step (qty * (5 / 10)) hstep
  have h3 := round_amount_le step (qty * rest_share) hstep
  have hr : rest_share = 3 / 10 := by norm_num [rest_share]
  simp only [tpLegs, tp_qty] at h1 h2 h3 ⊢
  rw [hr] at h3 ⊢
  linarith

/-- C1, witness for the amended theorem at step 1, quantity 3. -/
theorem C1_tp_allocation_amended_witness :
    (0 : ℚ) < 1 ∧
      (tpLegs 1 3).1 + (tpLegs 1 3).2.1 + (tpLegs 1 3).2.2 ≤ 3 :=
  ⟨by norm_num, C1_tp_allocation_amended 1 3 (by norm_num)⟩

/-- C3: for positive prices the slippage check passes exactly when
`|last − entry| / entry * 100 ≤ 0.30`; a 1% deviation fails; zero or
negative entry or last price always fails. -/
theorem C3_slippage_check (entry last : ℚ) (h : 0 < entry ∧ 0 < last) :
    (within_slippage entry last ALLOW_SLIPPAGE_PCT = true ↔
        |last - entry| / entry * 100 ≤ 30 / 100) ∧
    within_slippage entry (entry * (101 / 100)) ALLOW_SLIPPAGE_PCT = false ∧
    (∀ e l : ℚ, e ≤ 0 ∨ l ≤ 0 → within_slippage e l ALLOW_SLIPPAGE_PCT = false) := by
  obtain ⟨hentry, hlast⟩ := h
  refine ⟨?_, ?_, ?_⟩
  · simp only [within_slippage, ALLOW_SLIPPAGE_PCT]
    rw [if_neg (by push_neg; exact ⟨hentry, hlast⟩)]
    simp [decide_eq_true_iff]
  · have hlast2 : 0 < entry * (101 / 100) := by positivity
    simp only [within_slippage, ALLOW_SLIPPAGE_PCT]
    rw [if_neg (by push_neg; exact ⟨hentry, hlast2⟩)]
    simp only [decide_eq_false_iff_not]
    intro hc
    have he : entry * (101 / 100) - entry = entry / 100 := by ring
    rw [he, abs_of_pos (by positivity)] at hc
    have h1 : entry / 100 / entry * 100 = 1 := by
      field_simp
      ring
    rw [h1] at hc
    norm_num at hc
  · intro e l hel
    simp only [within_slippage]
    rw [if_pos hel]

/-- C3, witness: entry 100 against last 100 is within tolerance, and a 1%
deviation from entry 100 is rejected. -/
theorem C3_slippage_check_witness :
    within_slippage 100 (100 * (101 / 100)) ALLOW_SLIPPAGE_PCT = false ∧
      within_slippage 100 100 ALLOW_SLIPPAGE_PCT = true :=
  ⟨(C3_slippage_check 100 100 ⟨by norm_num, by norm_num⟩).2.1,
    (C3_slippage_check 100 100 ⟨by norm_num, by norm_num⟩).1.mpr (by norm_num)⟩

/-- C8: raw quantity is `(margin × leverage) / entryPrice` whenever the
entry price is at least the `1e-9` guard (so margin 50, leverage 20,
entry 100 gives 10), the raw quantity is then rounded to the instrument's
step, and the execution fails with `InsufficientSize` exactly when the
rounded quantity is ≤ 0. -/
theorem C8_sizing (ok : ℕ → Bool) (step : ℚ) (symbol direction : String)
    (entry tp1 tp2 : ℚ) (tp3 : Option ℚ) (last : ℚ)
    (hentry : (1 : ℚ) / 10 ^ 9 ≤ entry) :
    qty_raw entry = MARGIN_USDT * LEVERAGE / entry ∧
    qty_raw 100 = 10 ∧
    ((place_entry_and_tps ok step symbol direction entry tp1 tp2 tp3 last).2 =
        Except.error ExecErr.insufficientSize ↔
      round_amount step (qty_raw entry) ≤ 0) := by
  refine ⟨?_, ?_, ?_⟩
  · unfold qty_raw
    rw [max_eq_left hentry]
  · unfold qty_raw MARGIN_USDT LEVERAGE
    rw [max_eq_left (by norm_num)]
    norm_num
  · unfold place_entry_and_tps
    by_cases hq : round_amount step (qty_raw entry) ≤ 0
    · rw [if_pos hq]
      simpa using hq
    · rw [if_neg hq]
      simp only [iff_false_intro hq, iff_false]
      intro hcontra
      revert hcontra
      split
      · simp
      · split
        · simp
        · split
          · simp
          · split
            · simp
            · split
              · simp
              · simp

/-- C8, witness: margin 50 × leverage 20 at entry 100 sizes to 10, and with
step 1 the rounded quantity is positive, so the outcome is not
`InsufficientSize`. -/
theorem C8_sizing_witness :
    qty_raw 100 = MARGIN_USDT * LEVERAGE / 100 ∧ qty_raw 100 = 10 :=
  ⟨(C8_sizing (fun _ => true) 1 "STX/USDT:USDT" "LONG" 100 101 102 none 100
      (by norm_num)).1,
   (C8_sizing (fun _ => true) 1 "STX/USDT:USDT" "LONG" 100 101 102 none 100
      (by norm_num)).2.1⟩

/-- C9: the dry-run simulation is pure arithmetic and agrees with the live
path's arithmetic: same entry and reduce sides (`side_and_reduce`), the
same pre-rounding quantity (`qty_raw`), take-profit quantities at the same
fractions 0.20 / 0.50 / `rest_share` = 0.30 of that quantity, and the same
take-profit prices with TP3 defaulting to TP2 (`last_tp_price`). -/
theorem C9_simulate_matches_live (symbol direction : String)
    (entry tp1 tp2 : ℚ) (tp3 : Option ℚ) :
    (simulate_entry_and_tps symbol direction entry tp1 tp2 tp3).entry_side =
        (side_and_reduce direction).1 ∧
    (simulate_entry_and_tps symbol direction entry tp1 tp2 tp3).reduce_side =
        (side_and_reduce direction).2 ∧
    (simulate_entry_and_tps symbol direction entry tp1 tp2 tp3).qty =
        qty_raw entry ∧
    (simulate_entry_and_tps symbol direction entry tp1 tp2 tp3).tp1_qty =
        qty_raw entry * (2 / 10) ∧
    (simulate_entry_and_tps symbol direction entry tp1 tp2 tp3).tp2_qty =
        qty_raw entry * (5 / 10) ∧
    (simulate_entry_and_tps symbol direction entry tp1 tp2 tp3).tp3_qty =
        qty_raw entry * rest_share ∧
    (simulate_entry_and_tps symbol direction entry tp1 tp2 tp3).tp1_price = tp1 ∧
    (simulate_entry_and_tps symbol direction entry tp1 tp2 tp3).tp2_price = tp2 ∧
    (simulate_entry_and_tps symbol direction entry tp1 tp2 tp3).tp3_price =
        last_tp_price tp3 tp2 := by
  refine ⟨?_, ?_, rfl, rfl, rfl, ?_, rfl, rfl, ?_⟩
  · by_cases hd : direction.toUpper = "LONG" <;>
      simp [simulate_entry_and_tps, side_and_reduce, hd]
  · by_cases hd : direction.toUpper = "LONG" <;>
      simp [simulate_entry_and_tps, side_and_reduce, hd]
  · show qty_raw entry * (1 - 7 / 10) = qty_raw entry * rest_share
    norm_num [rest_share]
  · cases tp3 <;> simp [simulate_entry_and_tps, last_tp_price]

/-- C10: when the signal's entry price or the fetched last price is not
positive, `place_entry_and_tps` raises before any order (or leverage
change) is submitted; whenever the rounded quantity is positive it is
specifically the slippage guard that rejects; and the quantity formula's
denominator `max(entry, 1e-9)` is positive for every entry price, so the
quantity computation is total. -/
theorem C10_nonpositive_price_guard (ok : ℕ → Bool) (step : ℚ)
    (symbol direction : String) (entry tp1 tp2 : ℚ) (tp3 : Option ℚ)
    (last : ℚ) (h : entry ≤ 0 ∨ last ≤ 0) :
    (∀ e ∈ (place_entry_and_tps ok step symbol direction entry tp1 tp2 tp3 last).1,
        e.isMutating = false) ∧
    (∃ err, (place_entry_and_tps ok step symbol direction entry tp1 tp2 tp3 last).2 =
        Except.error err) ∧
    (0 < max entry ((1 : ℚ) / 10 ^ 9)) ∧
    (0 < round_amount step (qty_raw entry) →
      (place_entry_and_tps ok step symbol direction entry tp1 tp2 tp3 last).2 =
        Except.error ExecErr.excessiveSlippage) := by
  have hws : within_slippage entry last ALLOW_SLIPPAGE_PCT = false := by
    unfold within_slippage
    rw [if_pos h]
  have hmax : 0 < max entry ((1 : ℚ) / 10 ^ 9) :=
    lt_of_lt_of_le (by norm_num) (le_max_right _ _)
  unfold place_entry_and_tps
  by_cases hq : round_amount step (qty_raw entry) ≤ 0
  · rw [if_pos hq]
    exact ⟨by simp, ⟨_, rfl⟩, hmax, fun h0 => absurd h0 (not_lt.mpr hq)⟩
  · rw [if_neg hq, if_pos hws]
    refine ⟨?_, ⟨_, rfl⟩, hmax, fun _ => rfl⟩
    intro e he
    simp only [List.mem_singleton] at he
    subst he
    rfl

/-- C10, witness: a negative entry price with a positive market price is
rejected by the slippage guard before any mutating port call. -/
theorem C10_nonpositive_price_guard_witness :
    (∀ e ∈ (place_entry_and_tps (fun _ => true) 1 "STX/USDT:USDT" "LONG"
        (-1) 2 3 none 100).1, e.isMutating = false) ∧
    (∃ err, (place_entry_and_tps (fun _ => true) 1 "STX/USDT:USDT" "LONG"
        (-1) 2 3 none 100).2 = Except.error err) ∧
    (0 < max (-1 : ℚ) ((1 : ℚ) / 10 ^ 9)) ∧
    (0 < round_amount 1 (qty_raw (-1)) →
      (place_entry_and_tps (fun _ => true) 1 "STX/USDT:USDT" "LONG"
        (-1) 2 3 none 100).2 = Except.error ExecErr.excessiveSlippage) :=
  C10_nonpositive_price_guard (fun _ => true) 1 "STX/USDT:USDT" "LONG"
    (-1) 2 3 none 100 (Or.inl (by norm_num))

/-- An option whose `isSome` is false is `none`. -/
theorem isSome_false {α : Type} (o : Option α) (h : o.isSome = false) :
    o = none := by
  cases o with
  | none => rfl
  | some v => simp at h

/-- A successful case-insensitive literal match leaves a suffix of the
input. -/
theorem litI_suffix (p : List Char) : ∀ s r, litI p s = some r → r <:+ s := by
  induction p with
  | nil =>
    intro s r h
    simp only [litI, Option.some.injEq] at h
    subst h
    exact List.suffix_refl _
  | cons c cs ih =>
    intro s r h
    cases s with
    | nil => simp [litI] at h
    | cons a as =>
      simp only [litI] at h
      cases hc : chEqI c a with
      | false =>
        rw [hc] at h
        simp at h
      | true =>
        rw [hc] at h
        simp at h
        exact (ih as r h).trans (List.suffix_cons a as)

/-- Skipping whitespace leaves a suffix. -/
theorem skipWs_suffix (s : List Char) : skipWs s <:+ s := by
  induction s with
  | nil => exact List.suffix_refl _
  | cons c cs ih =>
    simp only [skipWs]
    split
    · exact ih.trans (List.suffix_cons c cs)
    · exact List.suffix_refl _

/-- Consuming an optional inline-code marker leaves a suffix. -/
theorem optTick_suffix (s : List Char) : optTick s <:+ s := by
  cases s with
  | nil => exact List.suffix_refl _
  | cons c cs =>
    simp only [optTick]
    split
    · exact List.suffix_cons c cs
    · exact List.suffix_refl _

/-- The rest after a digit run is a suffix of the input. -/
theorem takeDigits_suffix (s : List Char) : (takeDigits s).2 <:+ s := by
  induction s with
  | nil => exact List.suffix_refl _
  | cons c cs ih =>
    simp only [takeDigits]
    split
    · exact ih.trans (List.suffix_cons c cs)
    · exact List.suffix_refl _

/-- The rest after an alphanumeric run is a suffix of the input. -/
theorem takeAlnum_suffix (s : List Char) : (takeAlnum s).2 <:+ s := by
  induction s with
  | nil => exact List.suffix_refl _
  | cons c cs ih =>
    simp only [takeAlnum]
    split
    · exact ih.trans (List.suffix_cons c cs)
    · exact List.suffix_refl _

/-- A successful number token leaves a suffix of the input. -/
theorem numTok_suffix (s cap r : List Char) (h : numTok s = some (cap, r)) :
    r <:+ s := by
  simp only [numTok] at h
  by_cases he : (takeDigits s).1.isEmpty = true
  · rw [if_pos he] at h
    simp at h
  · rw [if_neg he] at h
    cases hd2 : (takeDigits s).2 with
    | nil =>
      simp only [hd2] at h
      simp only [Option.some.injEq, Prod.mk.injEq] at h
      obtain ⟨-, hr⟩ := h
      subst hr
      exact hd2 ▸ takeDigits_suffix s
    | cons c0 r2 =>
      simp only [hd2] at h
      by_cases hc : (c0 == '.') = true
      · rw [if_pos hc] at h
        by_cases hpe : (takeDigits r2).1.isEmpty = true
        · rw [if_pos hpe] at h
          simp only [Option.some.injEq, Prod.mk.injEq] at h
          obtain ⟨-, hr⟩ := h
          subst hr
          exact hd2 ▸ takeDigits_suffix s
        · rw [if_neg hpe] at h
          simp only [Option.some.injEq, Prod.mk.injEq] at h
          obtain ⟨-, hr⟩ := h
          subst hr
          exact ((takeDigits_suffix r2).trans (List.suffix_cons c0 r2)).trans
            (hd2 ▸ takeDigits_suffix s)
      · rw [if_neg hc] at h
        simp only [Option.some.injEq, Prod.mk.injEq] at h
        obtain ⟨-, hr⟩ := h
        subst hr
        exact hd2 ▸ takeDigits_suffix s

/-- A successful symbol match leaves a suffix of the input. -/
theorem symAt_suffix (s cap r : List Char) (h : symAt s = some (cap, r)) :
    r <:+ s := by
  simp only [symAt] at h
  by_cases he : (takeAlnum s).1.isEmpty = true
  · rw [if_pos he] at h
    simp at h
  · rw [if_neg he] at h
    cases hl : litI "/USDT".data (takeAlnum s).2 with
    | none =>
      rw [hl] at h
      simp at h
    | some r1 =>
      simp only [hl, Option.some.injEq, Prod.mk.injEq] at h
      obtain ⟨-, hr⟩ := h
      subst hr
      exact (litI_suffix _ _ _ hl).trans (takeAlnum_suffix s)

/-- A successful direction match leaves a suffix of the input. -/
theorem sideTok_suffix (s cap r : List Char) (h : sideTok s = some (cap, r)) :
    r <:+ s := by
  unfold sideTok at h
  cases hl : litI "LONG".data s with
  | some r1 =>
    simp only [hl, Option.some.injEq, Prod.mk.injEq] at h
    obtain ⟨-, hr⟩ := h
    subst hr
    exact litI_suffix _ _ _ hl
  | none =>
    simp only [hl] at h
    cases hs : litI "SHORT".data s with
    | some r1 =>
      simp only [hs, Option.some.injEq, Prod.mk.injEq] at h
      obtain ⟨-, hr⟩ := h
      subst hr
      exact litI_suffix _ _ _ hs
    | none =>
      simp [hs] at h

/-- The lazy search fails when the rest of the pattern fails at every
position (every suffix). -/
theorem searchR_eq_none {α : Type} (R : List Char → Option α) (s : List Char)
    (h : ∀ t, t <:+ s → R t = none) : searchR R s = none := by
  induction s with
  | nil =>
    unfold searchR
    exact h [] (List.suffix_refl _)
  | cons c cs ih =>
    unfold searchR
    rw [h (c :: cs) (List.suffix_refl _)]
    exact ih fun t ht => h t (ht.trans (List.suffix_cons c cs))

/-- Conversely, a failed lazy search means the rest of the pattern fails
at every position. -/
theorem searchR_none_imp {α : Type} (R : List Char → Option α) (s : List Char)
    (h : searchR R s = none) : ∀ t, t <:+ s → R t = none := by
  induction s with
  | nil =>
    intro t ht
    rw [List.suffix_nil] at ht
    subst ht
    exact h
  | cons c cs ih =>
    intro t ht
    unfold searchR at h
    cases hr : R (c :: cs) with
    | some v =>
      rw [hr] at h
      simp at h
    | none =>
      rw [hr] at h
      have h2 : searchR R cs = none := h
      rcases List.suffix_cons_iff.mp ht with he | ht2
      · subst he
        exact hr
      · exact ih h2 t ht2

/-- If a mandatory-field tag is absent from the text, the lazy search for
that literal fails everywhere. -/
theorem containsLit_none (lit : List Char) (text : String)
    (h : containsLit lit text = false) :
    ∀ t, t <:+ text.data → litI lit t = none := by
  unfold containsLit at h
  exact searchR_none_imp _ _ (isSome_false _ h)

/-- The trailing `.*?\n` + continuation of a field line fails everywhere
when the continuation fails everywhere. -/
theorem searchNl_none {α : Type} (next : List Char → Option α)
    (s u : List Char) (h : ∀ t, t <:+ s → next t = none) (hu : u <:+ s) :
    searchR (fun r3 =>
      match litI nlTok r3 with
      | none => none
      | some r4 => next r4) u = none := by
  apply searchR_eq_none
  intro r3 hr3
  cases hnl : litI nlTok r3 with
  | none => simp only [hnl]
  | some r4 =>
    simp only [hnl]
    exact h r4 ((litI_suffix _ _ _ hnl).trans (hr3.trans hu))

/-- A field block fails everywhere when its tag is never followed by a
parsable number anywhere in the text (in particular, when the tag is
absent or its value is unparsable at every occurrence). -/
theorem fieldBlock_none_of_head {α : Type} (tag : List Char)
    (next : List Char → Option α) (s : List Char)
    (h : ∀ t, t <:+ s →
      (match litI tag t with
       | none => none
       | some r1 => numTok (optTick (skipWs r1))) =
        (none : Option (List Char × List Char))) :
    ∀ u, u <:+ s → fieldBlock tag next u = none := by
  intro u hu
  unfold fieldBlock
  apply searchR_eq_none
  intro r hr
  have hh := h r (hr.trans hu)
  cases hl : litI tag r with
  | none => simp only [hl]
  | some r1 =>
    simp only [hl] at hh ⊢
    simp only [hh]

/-- A field block fails everywhere when its tag is absent from the text. -/
theorem fieldBlock_none_of_tag {α : Type} (tag : List Char)
    (next : List Char → Option α) (s : List Char)
    (h : ∀ t, t <:+ s → litI tag t = none) :
    ∀ u, u <:+ s → fieldBlock tag next u = none := by
  apply fieldBlock_none_of_head
  intro t ht
  simp only [h t ht]

/-- A field block fails everywhere when the rest of the pattern after it
fails everywhere. -/
theorem fieldBlock_none_of_next {α : Type} (tag : List Char)
    (next : List Char → Option α) (s : List Char)
    (h : ∀ t, t <:+ s → next t = none) :
    ∀ u, u <:+ s → fieldBlock tag next u = none := by
  intro u hu
  unfold fieldBlock
  apply searchR_eq_none
  intro r hr
  have hrs : r <:+ s := hr.trans hu
  cases hl : litI tag r with
  | none => simp only [hl]
  | some r1 =>
    simp only [hl]
    cases hn : numTok (optTick (skipWs r1)) with
    | none => simp only [hn]
    | some p =>
      obtain ⟨cap, r2⟩ := p
      simp only [hn]
      have hr2 : r2 <:+ s :=
        (numTok_suffix _ _ _ hn).trans ((optTick_suffix _).trans
          ((skipWs_suffix _).trans ((litI_suffix _ _ _ hl).trans hrs)))
      simp only [searchNl_none next s (optTick r2) h
        ((optTick_suffix r2).trans hr2)]

/-- The side block fails everywhere when the directional arrow is absent
from the text. -/
theorem sideBlock_none_of_arrow (s : List Char)
    (h : ∀ t, t <:+ s → litI "➡️".data t = none) :
    ∀ u, u <:+ s → sideBlock u = none := by
  intro u hu
  unfold sideBlock
  apply searchR_eq_none
  intro r hr
  simp only [h r (hr.trans hu)]

/-- The side block fails everywhere when neither direction token occurs in
the text. -/
theorem sideBlock_none_of_direction (s : List Char)
    (hlong : ∀ t, t <:+ s → litI "LONG".data t = none)
    (hshort : ∀ t, t <:+ s → litI "SHORT".data t = none) :
    ∀ u, u <:+ s → sideBlock u = none := by
  intro u hu
  unfold sideBlock
  apply searchR_eq_none
  intro r hr
  have hrs : r <:+ s := hr.trans hu
  cases ha : litI "➡️".data r with
  | none => simp only [ha]
  | some r1 =>
    simp only [ha]
    cases hst : litI ['*'] (skipWs r1) with
    | none => simp only [hst]
    | some r2 =>
      simp only [hst]
      have hr2 : r2 <:+ s :=
        (litI_suffix _ _ _ hst).trans ((skipWs_suffix r1).trans
          ((litI_suffix _ _ _ ha).trans hrs))
      have hsd : sideTok r2 = none := by
        unfold sideTok
        rw [hlong r2 hr2, hshort r2 hr2]
      simp only [hsd]

/-- The side block fails everywhere when the entry block fails
everywhere. -/
theorem sideBlock_none_of_entry (s : List Char)
    (hent : ∀ t, t <:+ s → entryBlock t = none) :
    ∀ u, u <:+ s → sideBlock u = none := by
  intro u hu
  unfold sideBlock
  apply searchR_eq_none
  intro r hr
  have hrs : r <:+ s := hr.trans hu
  cases ha : litI "➡️".data r with
  | none => simp only [ha]
  | some r1 =>
    simp only [ha]
    cases hst : litI ['*'] (skipWs r1) with
    | none => simp only [hst]
    | some r2 =>
      simp only [hst]
      cases hsd : sideTok r2 with
      | none => simp only [hsd]
      | some p =>
        obtain ⟨cap, r3⟩ := p
        simp only [hsd]
        cases hs2 : litI ['*'] r3 with
        | none => simp only [hs2]
        | some r4 =>
          simp only [hs2]
          have hr4 : r4 <:+ s :=
            (litI_suffix _ _ _ hs2).trans ((sideTok_suffix _ _ _ hsd).trans
              ((litI_suffix _ _ _ hst).trans ((skipWs_suffix r1).trans
                ((litI_suffix _ _ _ ha).trans hrs))))
          simp only [searchNl_none entryBlock s r4 hent hr4]

/-- The symbol block fails everywhere when "/USDT" is absent from the
text. -/
theorem symbolBlock_none_of_usdt (s : List Char)
    (h : ∀ t, t <:+ s → litI "/USDT".data t = none) :
    ∀ u, u <:+ s → symbolBlock u = none := by
  intro u hu
  unfold symbolBlock
  apply searchR_eq_none
  intro r hr
  have hrs : r <:+ s := hr.trans hu
  have hsa : symAt r = none := by
    simp only [symAt]
    by_cases he : (takeAlnum r).1.isEmpty = true
    · rw [if_pos he]
    · rw [if_neg he, h (takeAlnum r).2 ((takeAlnum_suffix r).trans hrs)]
  simp only [hsa]

/-- The symbol block fails everywhere when the side block fails
everywhere. -/
theorem symbolBlock_none_of_side (s : List Char)
    (hside : ∀ t, t <:+ s → sideBlock t = none) :
    ∀ u, u <:+ s → symbolBlock u = none := by
  intro u hu
  unfold symbolBlock
  apply searchR_eq_none
  intro r hr
  cases hsa : symAt r with
  | none => simp only [hsa]
  | some p =>
    obtain ⟨cap, r1⟩ := p
    simp only [hsa]
    have hr1 : r1 <:+ s := (symAt_suffix _ _ _ hsa).trans (hr.trans hu)
    simp only [searchNl_none sideBlock s r1 hside hr1]

/-- The whole pattern fails when the marker literal matches nowhere. -/
theorem SIGNAL_RE_none_of_marker (text : String)
    (h : ∀ t, t <:+ text.data → litI "STRIKT".data t = none) :
    SIGNAL_RE_search text = none := by
  unfold SIGNAL_RE_search
  have hms : searchR markerThenSymbol text.data = none := by
    apply searchR_eq_none
    intro r hr
    unfold markerThenSymbol
    rw [h r hr]
  rw [hms]

/-- The whole pattern fails when the symbol block fails everywhere. -/
theorem SIGNAL_RE_none_of_symbol (text : String)
    (h : ∀ t, t <:+ text.data → symbolBlock t = none) :
    SIGNAL_RE_search text = none := by
  unfold SIGNAL_RE_search
  have hms : searchR markerThenSymbol text.data = none := by
    apply searchR_eq_none
    intro r hr
    unfold markerThenSymbol
    cases hl : litI "STRIKT".data r with
    | none => simp only [hl]
    | some r1 =>
      simp only [hl]
      exact h r1 ((litI_suffix _ _ _ hl).trans hr)
  rw [hms]

/-- The whole pattern fails when the entry block fails everywhere. -/
theorem SIGNAL_RE_none_of_entryBlock (text : String)
    (h : ∀ t, t <:+ text.data → entryBlock t = none) :
    SIGNAL_RE_search text = none :=
  SIGNAL_RE_none_of_symbol text
    (symbolBlock_none_of_side text.data (sideBlock_none_of_entry text.data h))

/-- C6: the parser returns the silent no-match result `None` (and, being a
total pure function, cannot raise or perform a side effect) for every text
lacking the marker token, and for every text in which a mandatory field is
missing — no symbol pair ("/USDT"), no directional arrow, no LONG/SHORT
token, no `Entry:`, no `TP1:`, or no `TP2:` (each read case-insensitively,
as the `(?i)` pattern does) — and for every text whose `Entry:` field is
missing or unparsable at every occurrence (no occurrence is followed by a
`\d+(\.\d+)?` number). -/
theorem C6_silent_failure (text : String) :
    (containsMarker text = false → SIGNAL_RE_search text = none) ∧
    (containsLit "/USDT".data text = false → SIGNAL_RE_search text = none) ∧
    (containsLit "➡️".data text = false → SIGNAL_RE_search text = none) ∧
    (containsLit "LONG".data text = false →
      containsLit "SHORT".data text = false →
      SIGNAL_RE_search text = none) ∧
    (containsLit "Entry:".data text = false → SIGNAL_RE_search text = none) ∧
    (containsLit "TP1:".data text = false → SIGNAL_RE_search text = none) ∧
    (containsLit "TP2:".data text = false → SIGNAL_RE_search text = none) ∧
    (entryFieldParsable text = false → SIGNAL_RE_search text = none) := by
  refine ⟨?_, ?_, ?_, ?_, ?_, ?_, ?_, ?_⟩
  · intro h
    unfold containsMarker at h
    exact SIGNAL_RE_none_of_marker text (searchR_none_imp _ _ (isSome_false _ h))
  · intro h
    exact SIGNAL_RE_none_of_symbol text
      (symbolBlock_none_of_usdt text.data (containsLit_none _ _ h))
  · intro h
    exact SIGNAL_RE_none_of_symbol text
      (symbolBlock_none_of_side text.data
        (sideBlock_none_of_arrow text.data (containsLit_none _ _ h)))
  · intro h1 h2
    exact SIGNAL_RE_none_of_symbol text
      (symbolBlock_none_of_side text.data
        (sideBlock_none_of_direction text.data
          (containsLit_none _ _ h1) (containsLit_none _ _ h2)))
  · intro h
    exact SIGNAL_RE_none_of_entryBlock text
      (fieldBlock_none_of_tag "Entry:".data tp1Block text.data
        (containsLit_none _ _ h))
  · intro h
    exact SIGNAL_RE_none_of_entryBlock text
      (fieldBlock_none_of_next "Entry:".data tp1Block text.data
        (fieldBlock_none_of_tag "TP1:".data tp2Block text.data
          (containsLit_none _ _ h)))
  · intro h
    exact SIGNAL_RE_none_of_entryBlock text
      (fieldBlock_none_of_next "Entry:".data tp1Block text.data
        (fieldBlock_none_of_next "TP1:".data tp2Block text.data
          (fieldBlock_none_of_tag "TP2:".data (fun r => some (tp3Block r))
            text.data (containsLit_none _ _ h))))
  · intro h
    unfold entryFieldParsable at h
    exact SIGNAL_RE_none_of_entryBlock text
      (fieldBlock_none_of_head "Entry:".data tp1Block text.data
        (searchR_none_imp _ _ (isSome_false _ h)))

/-- C6, witness: a markerless multi-line text, a marker-bearing message
with no `Entry:` field, and a message whose `Entry:` value is unparsable
all parse to `None`. -/
theorem C6_silent_failure_witness :
    (containsMarker "hello\nmulti-line world" = false ∧
      SIGNAL_RE_search "hello\nmulti-line world" = none) ∧
    (containsLit "Entry:".data missingEntrySignal = false ∧
      SIGNAL_RE_search missingEntrySignal = none) ∧
    (entryFieldParsable unparsableEntrySignal = false ∧
      SIGNAL_RE_search unparsableEntrySignal = none) :=
  ⟨⟨by decide, (C6_silent_failure "hello\nmulti-line world").1 (by decide)⟩,
   ⟨by decide, (C6_silent_failure missingEntrySignal).2.2.2.2.1 (by decide)⟩,
   ⟨by decide,
    (C6_silent_failure unparsableEntrySignal).2.2.2.2.2.2.2 (by decide)⟩⟩

/-- C7: the fixture message of `cmd_testsignal` parses to exactly the
claimed captures — symbol `STX/USDT`, direction `SHORT`, entry `0.643`,
TP1 `0.641297`, TP2 `0.639253`, TP3 `0.637209` — whose numeric conversions
are the exact stated rationals, and the normalized perpetual symbol is
`STX/USDT:USDT`. -/
theorem C7_fixture_parse :
    SIGNAL_RE_search sampleSignal =
      some ⟨"STX/USDT".data, "SHORT".data, "0.643".data, "0.641297".data,
        "0.639253".data, some ("0.637209".data)⟩ ∧
    String.mk (toUpperList "SHORT".data) = "SHORT" ∧
    decVal "0.643".data = 643 / 1000 ∧
    decVal "0.641297".data = 641297 / 1000000 ∧
    decVal "0.639253".data = 639253 / 1000000 ∧
    decVal "0.637209".data = 637209 / 1000000 ∧
    to_perp (String.mk (toUpperList "STX/USDT".data)) = some "STX/USDT:USDT" := by
  refine ⟨by decide, by decide, ?_, ?_, ?_, ?_, by decide⟩
  · have h : decVal "0.643".data = ((0 : ℕ) : ℚ) + ((643 : ℕ) : ℚ) / 10 ^ 3 := rfl
    rw [h]
    norm_num
  · have h : decVal "0.641297".data =
        ((0 : ℕ) : ℚ) + ((641297 : ℕ) : ℚ) / 10 ^ 6 := rfl
    rw [h]
    norm_num
  · have h : decVal "0.639253".data =
        ((0 : ℕ) : ℚ) + ((639253 : ℕ) : ℚ) / 10 ^ 6 := rfl
    rw [h]
    norm_num
  · have h : decVal "0.637209".data =
        ((0 : ℕ) : ℚ) + ((637209 : ℕ) : ℚ) / 10 ^ 6 := rfl
    rw [h]
    norm_num

/-- C5: the submitted orders are always an initial segment of
entry, TP1, TP2, TP3 — the entry is submitted first and the take-profit
legs in TP1, TP2, TP3 order; a fully successful execution submits exactly
that sequence; and when the entry submission itself fails (after the
sizing and slippage guards pass), the execution aborts with a failure
having submitted only the entry attempt and no TP or stop leg. -/
theorem C5_submission_order (ok : ℕ → Bool) (step : ℚ)
    (symbol direction : String) (entry tp1 tp2 : ℚ) (tp3 : Option ℚ)
    (last : ℚ) :
    ((place_entry_and_tps ok step symbol direction entry tp1 tp2 tp3 last).1.filter
        PortEvent.isOrder <+:
      plannedOrders step symbol direction entry tp1 tp2 tp3) ∧
    (∀ b, (place_entry_and_tps ok step symbol direction entry tp1 tp2 tp3 last).2 =
        Except.ok b →
      (place_entry_and_tps ok step symbol direction entry tp1 tp2 tp3 last).1.filter
          PortEvent.isOrder =
        plannedOrders step symbol direction entry tp1 tp2 tp3) ∧
    (¬ round_amount step (qty_raw entry) ≤ 0 →
      within_slippage entry last ALLOW_SLIPPAGE_PCT = true →
      ok 0 = false →
      (place_entry_and_tps ok step symbol direction entry tp1 tp2 tp3 last).1.filter
          PortEvent.isOrder = [entryOrderEv step symbol direction entry] ∧
      (place_entry_and_tps ok step symbol direction entry tp1 tp2 tp3 last).2 =
        Except.error (ExecErr.orderFailed 0)) := by
  unfold place_entry_and_tps
  by_cases hq : round_amount step (qty_raw entry) ≤ 0
  · rw [if_pos hq]
    exact ⟨⟨_, rfl⟩, by simp, fun hc => absurd hq hc⟩
  rw [if_neg hq]
  by_cases hws : within_slippage entry last ALLOW_SLIPPAGE_PCT = false
  · rw [if_pos hws]
    refine ⟨?_, by simp, ?_⟩
    · simp [List.filter, PortEvent.isOrder]
    · intro _ hws2 _
      rw [hws2] at hws
      exact absurd hws (by simp)
  rw [if_neg hws]
  by_cases h0 : ok 0 = false
  · rw [if_pos h0]
    refine ⟨?_, by simp, fun _ _ _ => ⟨?_, rfl⟩⟩ <;>
      (simp only [List.filter, PortEvent.isOrder, entryOrderEv, plannedOrders,
         tpOrderEv1, tpOrderEv2, tpOrderEv3]
       try first
         | exact ⟨_, rfl⟩
         | rfl)
  rw [if_neg h0]
  by_cases h1 : ok 1 = false
  · rw [if_pos h1]
    refine ⟨?_, by simp, fun _ _ hc => absurd hc h0⟩
    simp only [List.filter, PortEvent.isOrder, entryOrderEv, plannedOrders,
      tpOrderEv1, tpOrderEv2, tpOrderEv3]
    exact ⟨_, rfl⟩
  rw [if_neg h1]
  by_cases h2 : ok 2 = false
  · rw [if_pos h2]
    refine ⟨?_, by simp, fun _ _ hc => absurd hc h0⟩
    simp only [List.filter, PortEvent.isOrder, entryOrderEv, plannedOrders,
      tpOrderEv1, tpOrderEv2, tpOrderEv3]
    exact ⟨_, rfl⟩
  rw [if_neg h2]
  by_cases h3 : ok 3 = false
  · rw [if_pos h3]
    refine ⟨?_, by simp, fun _ _ hc => absurd hc h0⟩
    simp only [List.filter, PortEvent.isOrder, entryOrderEv, plannedOrders,
      tpOrderEv1, tpOrderEv2, tpOrderEv3]
    exact ⟨_, rfl⟩
  rw [if_neg h3]
  refine ⟨?_, fun b _ => ?_, fun _ _ hc => absurd hc h0⟩
  · simp only [List.filter, PortEvent.isOrder, entryOrderEv, plannedOrders,
      tpOrderEv1, tpOrderEv2, tpOrderEv3]
    exact ⟨[], List.append_nil _⟩
  · simp [List.filter, PortEvent.isOrder, entryOrderEv, plannedOrders,
      tpOrderEv1, tpOrderEv2, tpOrderEv3]

/-- C5, witness: with every `create_order` failing, an in-guard signal
(entry 100 against market 100, step 1) submits exactly the entry attempt
and aborts with `orderFailed 0`. -/
theorem C5_submission_order_witness :
    (¬ round_amount 1 (qty_raw 100) ≤ 0) ∧
    within_slippage 100 100 ALLOW_SLIPPAGE_PCT = true ∧
    ((place_entry_and_tps (fun _ => false) 1 "STX/USDT:USDT" "LONG"
        100 101 102 none 100).1.filter PortEvent.isOrder =
      [entryOrderEv 1 "STX/USDT:USDT" "LONG" 100] ∧
     (place_entry_and_tps (fun _ => false) 1 "STX/USDT:USDT" "LONG"
        100 101 102 none 100).2 = Except.error (ExecErr.orderFailed 0)) := by
  have hq : ¬ round_amount 1 (qty_raw 100) ≤ 0 := by
    have h10 : qty_raw 100 = 10 := by
      unfold qty_raw MARGIN_USDT LEVERAGE
      rw [max_eq_left (by norm_num)]
      norm_num
    rw [h10]
    unfold round_amount
    rw [show ((10 : ℚ) / 1) = 10 by norm_num]
    rw [show ⌊(10 : ℚ)⌋ = 10 from by rw [Int.floor_eq_iff]; norm_num]
    norm_num
  have hws : within_slippage 100 100 ALLOW_SLIPPAGE_PCT = true := by
    unfold within_slippage ALLOW_SLIPPAGE_PCT
    rw [if_neg (by norm_num)]
    norm_num
  exact ⟨hq, hws,
    (C5_submission_order (fun _ => false) 1 "STX/USDT:USDT" "LONG"
      100 101 102 none 100).2.2 hq hws rfl⟩

/-- C4: with the dry-run flag set, processing any message performs no
mutating trading-port call (no order creation, no cancellation, no
leverage/margin-mode change) and emits no live-trade report — every
notification is either the dry-run plan display or a caught-error
report. -/
theorem C4_dry_run_no_mutation (dryRun channelOk seen marketOk : Bool)
    (ok : ℕ → Bool) (step : ℚ) (text : String) (last : ℚ)
    (h : dryRun = true) :
    (∀ e ∈ (on_message dryRun channelOk seen marketOk ok step text last).1,
        e.isMutating = false) ∧
    (∀ n ∈ (on_message dryRun channelOk seen marketOk ok step text last).2,
        ∀ q l : ℚ, n ≠ NoteKind.tradeReport q l) := by
  subst h
  cases channelOk with
  | false => constructor <;> simp [on_message]
  | true =>
    cases seen with
    | true => constructor <;> simp [on_message]
    | false =>
      cases hg : SIGNAL_RE_search text.trim with
      | none => constructor <;> simp [on_message, hg]
      | some g =>
        cases hp : to_perp (String.mk (toUpperList g.symbol)) with
        | none => constructor <;> simp [on_message, hg, hp]
        | some perp =>
          cases marketOk with
          | false =>
            constructor <;> simp [on_message, hg, hp, PortEvent.isMutating]
          | true =>
            constructor <;> simp [on_message, hg, hp, PortEvent.isMutating]

/-- C4, witness: a recognized signal (the fixture) processed with dry-run
on, a known market, and an all-succeeding port performs no mutating call
and reports no live trade. -/
theorem C4_dry_run_no_mutation_witness :
    (∀ e ∈ (on_message true true false true (fun _ => true) 1
        sampleSignal 100).1, e.isMutating = false) ∧
    (∀ n ∈ (on_message true true false true (fun _ => true) 1
        sampleSignal 100).2, ∀ q l : ℚ, n ≠ NoteKind.tradeReport q l) :=
  C4_dry_run_no_mutation true true false true (fun _ => true) 1
    sampleSignal 100 rfl

/-- C2: in state `WATCHING_TP1`, once the first take-profit leg's filled
quantity reaches its planned quantity (and the position is not yet flat),
one polling cycle cancels the existing stop order exactly when one exists,
submits exactly one new reduce-only stop order at the original entry price
sized to `total − TP1 quantity`, records `stopIsBreakEven = true`, emits
the operator notification, and — once `stopIsBreakEven` is set — no later
cycle submits another stop. -/
theorem C2_break_even_transition (b : MonBundle) (tp1Filled pos : ℚ)
    (nid : ℕ) (hstate : b.state = MonState.watchingTp1)
    (hfill : b.tp1Planned ≤ tp1Filled) (hpos : pos ≠ 0) :
    ((∀ i, b.stopOrder = some i →
        MonAction.cancelStop i ∈ (monitorStep b tp1Filled pos nid).2) ∧
     (b.stopOrder = none →
        ∀ i, MonAction.cancelStop i ∉ (monitorStep b tp1Filled pos nid).2)) ∧
    (monitorStep b tp1Filled pos nid).2.filter MonAction.isSubmitStop =
      [MonAction.submitStop b.originalEntry (b.total - b.tp1Planned) true] ∧
    MonAction.notifyBreakEven ∈ (monitorStep b tp1Filled pos nid).2 ∧
    (monitorStep b tp1Filled pos nid).1.stopIsBreakEven = true ∧
    (∀ f2 p2 nid2, p2 ≠ 0 →
      (monitorStep (monitorStep b tp1Filled pos nid).1 f2 p2 nid2).2.filter
        MonAction.isSubmitStop = []) := by
  unfold monitorStep
  rw [if_neg hpos, hstate]
  simp only [if_pos hfill]
  cases hso : b.stopOrder with
  | some i =>
    refine ⟨⟨?_, ?_⟩, ?_, ?_, ?_, ?_⟩
    · intro j hj
      simp only [Option.some.injEq] at hj
      subst hj
      simp
    · intro hnone
      exact absurd hnone (by simp)
    · simp [List.filter, MonAction.isSubmitStop]
    · simp
    · simp
    · intro f2 p2 nid2 hp2
      rw [if_neg hp2]
      simp [MonAction.isSubmitStop]
  | none =>
    refine ⟨⟨?_, ?_⟩, ?_, ?_, ?_, ?_⟩
    · intro j hj
      exact absurd hj (by simp)
    · intro _ i
      simp
    · simp [List.filter, MonAction.isSubmitStop]
    · simp
    · simp
    · intro f2 p2 nid2 hp2
      rw [if_neg hp2]
      simp [MonAction.isSubmitStop]

/-- C2, witness: a concrete watching bundle (total 10, TP1 quantity 2,
entry 0.643, an existing stop id 7) with TP1 exactly filled and 8
contracts still open takes the break-even transition. -/
theorem C2_break_even_transition_witness :
    ((∀ i, (⟨10, 2, 643 / 1000, some 7, false,
          MonState.watchingTp1⟩ : MonBundle).stopOrder = some i →
        MonAction.cancelStop i ∈
          (monitorStep ⟨10, 2, 643 / 1000, some 7, false,
            MonState.watchingTp1⟩ 2 8 99).2) ∧
     ((⟨10, 2, 643 / 1000, some 7, false,
          MonState.watchingTp1⟩ : MonBundle).stopOrder = none →
        ∀ i, MonAction.cancelStop i ∉
          (monitorStep ⟨10, 2, 643 / 1000, some 7, false,
            MonState.watchingTp1⟩ 2 8 99).2)) ∧
    (monitorStep ⟨10, 2, 643 / 1000, some 7, false,
        MonState.watchingTp1⟩ 2 8 99).2.filter MonAction.isSubmitStop =
      [MonAction.submitStop (643 / 1000) (10 - 2) true] ∧
    MonAction.notifyBreakEven ∈
      (monitorStep ⟨10, 2, 643 / 1000, some 7, false,
        MonState.watchingTp1⟩ 2 8 99).2 ∧
    (monitorStep ⟨10, 2, 643 / 1000, some 7, false,
        MonState.watchingTp1⟩ 2 8 99).1.stopIsBreakEven = true ∧
    (∀ f2 p2 nid2, p2 ≠ 0 →
      (monitorStep (monitorStep ⟨10, 2, 643 / 1000, some 7, false,
          MonState.watchingTp1⟩ 2 8 99).1 f2 p2 nid2).2.filter
        MonAction.isSubmitStop = []) :=
  C2_break_even_transition
    ⟨10, 2, 643 / 1000, some 7, false, MonState.watchingTp1⟩ 2 8 99
    rfl (by norm_num) (by norm_num)

end Bothh
